import Mathlib

/-!
Shallow embedding of the webtunnel terminal session engine
(`internal/services/terminal/service.go` and the session part of
`internal/config/config.go`), together with proofs about the embedded
operations.

Modelling conventions:
* bytes are `Nat` (Go `byte` values), byte strings are `List Nat`;
* time is an abstract `Nat` number of milliseconds; `time.Now()` is an
  explicit `now` parameter;
* the Go map `sessions map[string]*Session` is an association list with
  map semantics (insert overwrites, delete removes the key);
* external effects (mkdir, PTY spawn, PTY writes/resizes, JSON parsing
  of resize payloads) are oracle parameters or explicit effect lists;
* mutexes are dropped: each operation is a pure state transformer.
-/

namespace WebTunnel

/-! ### Ring output buffer (`CircularBuffer` in service.go) -/

structure CircularBuffer where
  data : List Nat
  size : Nat
  pos : Nat
  full : Bool
deriving DecidableEq, Repr

/-- Model of `NewCircularBuffer(size)`: `data = make([]byte, size)`, zeroed. -/
def NewCircularBuffer (size : Nat) : CircularBuffer :=
  { data := List.replicate size 0, size := size, pos := 0, full := false }

/-- One iteration of the loop body of `CircularBuffer.Write`:
`data[pos] = b; pos = (pos+1) % size; if pos == 0 { full = true }`. -/
def CircularBuffer.writeByte (cb : CircularBuffer) (b : Nat) : CircularBuffer :=
  let data := cb.data.set cb.pos b
  let pos := (cb.pos + 1) % cb.size
  let full := if pos = 0 then true else cb.full
  { data := data, size := cb.size, pos := pos, full := full }

/-- Model of `CircularBuffer.Write(p)`: the loop over the bytes of `p`. -/
def CircularBuffer.write (cb : CircularBuffer) (p : List Nat) : CircularBuffer :=
  p.foldl CircularBuffer.writeByte cb

/-- A whole sequence of `Write` calls. -/
def CircularBuffer.writeAll (cb : CircularBuffer) (ps : List (List Nat)) : CircularBuffer :=
  ps.foldl CircularBuffer.write cb

/-- Model of `CircularBuffer.Read()`: nil when empty, the wrapped content when full,
the first `pos` bytes otherwise. -/
def CircularBuffer.read (cb : CircularBuffer) : List Nat :=
  if ¬cb.full ∧ cb.pos = 0 then []
  else if cb.full then cb.data.drop cb.pos ++ cb.data.take cb.pos
  else cb.data.take cb.pos

/-- The last `n` elements of a list (all of it when it is shorter). -/
def lastN (n : Nat) (l : List Nat) : List Nat :=
  l.drop (l.length - n)

/-- Structural invariant of a circular buffer of positive capacity. -/
def CircularBuffer.Inv (cb : CircularBuffer) : Prop :=
  cb.data.length = cb.size ∧ cb.pos < cb.size

/-! ### Session data model -/

inductive Status where
  | running
  | stopped
  | error
deriving DecidableEq, Repr

/-- The session-relevant part of `config.SessionConfig`. -/
structure SessionConfig where
  maxSessions : Int
  sessionTimeoutMs : Nat
  workingDirectory : String
  allowedCommands : List String
  blockedCommands : List String
deriving DecidableEq, Repr

/-- A `Session`, with the PTY handle abstracted to `hasPty` and the
attached websocket connections to a list of connection identifiers. -/
structure Session where
  id : String
  userID : String
  command : String
  workingDir : String
  status : Status
  createdAt : Nat
  lastActive : Nat
  hasPty : Bool
  connections : List Nat
  outputBuf : CircularBuffer
deriving DecidableEq, Repr

/-- The `Service`: configuration plus the `sessions` table. -/
structure ServiceState where
  config : SessionConfig
  sessions : List (String × Session)
deriving DecidableEq, Repr

/-- Map lookup in the sessions table (first entry with the key). -/
def findSession : List (String × Session) → String → Option Session
  | [], _ => none
  | (k, s) :: rest, sessionID => if k = sessionID then some s else findSession rest sessionID

/-- Map deletion: every entry with the key goes. -/
def eraseSession (l : List (String × Session)) (sessionID : String) : List (String × Session) :=
  l.filter (fun p => !(p.1 == sessionID))

/-- In-place update of the session stored under a key (pointer mutation
of the `*Session` the map holds). -/
def updateSession (l : List (String × Session)) (sessionID : String) (sess : Session) :
    List (String × Session) :=
  l.map (fun p => if p.1 = sessionID then (p.1, sess) else p)

/-- The quota loop of `CreateSession`: count this user's `Running` sessions. -/
def countRunning (l : List (String × Session)) (userID : String) : Nat :=
  l.countP (fun p => p.2.userID == userID && p.2.status == Status.running)

inductive CreateError where
  | quotaExceeded
  | commandNotAllowed
  | commandBlocked
  | mkdirFailed
  | spawnFailed
deriving DecidableEq, Repr

/-- Model of `Service.CreateSession`, with `generateSessionID`, `os.MkdirAll` and
`startProcess` abstracted to the parameters `newID`, `mkdirOk`, `spawnOk`.
On every error path the table is returned unchanged; the new session is
inserted only after the spawn step succeeds, as in the source. -/
def createSession (st : ServiceState) (userID command workingDir : String)
    (newID : String) (now : Nat) (mkdirOk spawnOk : Bool) :
    ServiceState × Except CreateError Session :=
  let userSessions := countRunning st.sessions userID
  if (userSessions : Int) ≥ st.config.maxSessions then
    (st, .error .quotaExceeded)
  else if st.config.allowedCommands.length > 0 && !(st.config.allowedCommands.contains command) then
    (st, .error .commandNotAllowed)
  else if st.config.blockedCommands.contains command then
    (st, .error .commandBlocked)
  else if !mkdirOk then
    (st, .error .mkdirFailed)
  else
    let sess : Session :=
      { id := newID, userID := userID, command := command,
        workingDir := workingDir ++ "/sessions/" ++ newID,
        status := Status.running, createdAt := now, lastActive := now,
        hasPty := true, connections := [],
        outputBuf := NewCircularBuffer (1024 * 1024) }
    if !spawnOk then
      (st, .error .spawnFailed)
    else
      ({ st with sessions := (newID, sess) :: eraseSession st.sessions newID }, .ok sess)

/-- Model of `Service.GetSession`. -/
def getSession (st : ServiceState) (sessionID : String) : Option Session :=
  findSession st.sessions sessionID

/-- Model of `Service.KillSession`: `none` models the `session not found` error;
on success the returned record is the mutated `*Session` object
(status set to `Stopped` before the table entry is deleted). -/
def killSession (st : ServiceState) (sessionID : String) : ServiceState × Option Session :=
  match findSession st.sessions sessionID with
  | none => (st, none)
  | some sess =>
      let sess' := { sess with status := Status.stopped }
      ({ st with sessions := eraseSession st.sessions sessionID }, some sess')

/-- The hard-coded reaper timeout: `timeout := 1 * time.Hour // Configure this`,
expressed in milliseconds. -/
def hardTimeoutMs : Nat := 3600000

/-- Model of `Service.CleanupStaleSessions` at time `now`: a session is removed when
`now.Sub(session.LastActive) > timeout` with the hard-coded one-hour
timeout; the configured `SessionTimeout` is not consulted. -/
def cleanupStaleSessions (st : ServiceState) (now : Nat) : ServiceState :=
  { st with
    sessions := st.sessions.filter (fun p => !(decide (now - p.2.lastActive > hardTimeoutMs))) }

/-! ### Websocket attach and message handling -/

/-- The wire message, timestamps dropped. `msgType` is the Go field `Type`. -/
structure Message where
  msgType : String
  data : String
  sessionID : String
deriving DecidableEq, Repr

/-- Go `string(bytes)` on buffer contents. -/
def bytesToString (l : List Nat) : String :=
  String.mk (l.map Char.ofNat)

/-- Go `[]byte(s)` on a message payload. -/
def stringToBytes (s : String) : List Nat :=
  s.data.map Char.toNat

/-- The welcome banner `AttachWebSocket` sends first. -/
def welcomeMessage (sessionID : String) : Message :=
  { msgType := "output",
    data := "\r\n🌐 WebTunnel connected to session " ++ sessionID ++ "\r\n",
    sessionID := sessionID }

inductive AttachError where
  | notFound
  | notRunning
deriving DecidableEq, Repr

/-- Model of `Service.AttachWebSocket`: lookup, running check, add the connection
to the fan-out set, send the welcome banner, then send the buffer
snapshot as one `output` message when it is non-empty. The returned list
is the messages written to the new connection, in order. -/
def attachWebSocket (st : ServiceState) (sessionID : String) (connId : Nat) :
    Except AttachError (ServiceState × List Message) :=
  match findSession st.sessions sessionID with
  | none => .error .notFound
  | some sess =>
      if sess.status ≠ Status.running then .error .notRunning
      else
        let sess' := { sess with connections := connId :: sess.connections }
        let st' := { st with sessions := updateSession st.sessions sessionID sess' }
        let buf := sess.outputBuf.read
        let msgs :=
          if buf.length > 0 then
            [welcomeMessage sessionID,
             { msgType := "output", data := bytesToString buf, sessionID := sessionID }]
          else [welcomeMessage sessionID]
        .ok (st', msgs)

/-- Effects issued against the PTY while handling inbound messages. -/
inductive Effect where
  | ptyWrite (data : List Nat)
  | ptyResize (rows cols : Nat)
deriving DecidableEq, Repr

/-- The `{cols, rows}` structure a `resize` payload unmarshals into. -/
structure ResizeData where
  cols : Int
  rows : Int
deriving DecidableEq, Repr

/-- Go's `uint16(i)` conversion from `int`: reduction modulo `2^16`. -/
def toUInt16Nat (i : Int) : Nat :=
  (i % 65536).toNat

/-- Model of `Service.SendInput`: lookup, running check, update `LastActive`,
write to the PTY when present. The `Option String` is the error. -/
def sendInput (st : ServiceState) (sessionID : String) (input : List Nat) (now : Nat) :
    ServiceState × List Effect × Option String :=
  match findSession st.sessions sessionID with
  | none => (st, [], some "session not found")
  | some sess =>
      if sess.status ≠ Status.running then (st, [], some "session is not running")
      else
        let sess' := { sess with lastActive := now }
        let st' := { st with sessions := updateSession st.sessions sessionID sess' }
        if sess.hasPty then (st', [Effect.ptyWrite input], none)
        else (st', [], some "session PTY not available")

/-- The `switch msg.Type` body of `Service.handleWebSocketMessages` for one
inbound message. `parseResize` abstracts `json.Unmarshal` on a resize
payload (`none` models a parse error). Returns the new state, the
messages written back to this connection, and the PTY effects. -/
def handleMessage (st : ServiceState) (sess : Session) (msg : Message)
    (parseResize : String → Option ResizeData) (now : Nat) :
    ServiceState × List Message × List Effect :=
  if msg.msgType = "input" then
    match sendInput st sess.id (stringToBytes msg.data) now with
    | (st', effs, some e) =>
        (st', [{ msgType := "error", data := "Failed to send input: " ++ e,
                 sessionID := sess.id }], effs)
    | (st', effs, none) => (st', [], effs)
  else if msg.msgType = "resize" then
    match parseResize msg.data with
    | some rd =>
        if sess.hasPty then
          (st, [], [Effect.ptyResize (toUInt16Nat rd.rows) (toUInt16Nat rd.cols)])
        else (st, [], [])
    | none => (st, [], [])
  else if msg.msgType = "ping" then
    (st, [{ msgType := "pong", data := "", sessionID := sess.id }], [])
  else
    (st, [], [])

/-- Wrapper for inspecting whether a `CreateSession` result succeeded. -/
def createOk (r : ServiceState × Except CreateError Session) : Bool :=
  match r.2 with
  | .ok _ => true
  | .error _ => false

/-! ### Concrete fixtures used by witnesses and counterexamples -/

/-- The configuration of the repository's own tests: `MaxSessions: 10`,
a short configured timeout, deny-list `["rm", "sudo"]`. -/
def testConfig : SessionConfig :=
  { maxSessions := 10, sessionTimeoutMs := 100, workingDirectory := "/tmp",
    allowedCommands := [], blockedCommands := ["rm", "sudo"] }

/-- A small concrete session record. -/
def sampleSession (sessionID userID : String) (stat : Status) (lastActive : Nat) : Session :=
  { id := sessionID, userID := userID, command := "ls", workingDir := "/tmp",
    status := stat, createdAt := 0, lastActive := lastActive, hasPty := true,
    connections := [], outputBuf := NewCircularBuffer 4 }

/-- A buffer holding the PTY output `"hello\n"`. -/
def helloBuf : CircularBuffer :=
  (NewCircularBuffer 16).write [104, 101, 108, 108, 111, 10]

/-- A running session whose output buffer holds `"hello\n"`. -/
def sessH : Session :=
  { sampleSession "s1" "alice" Status.running 0 with outputBuf := helloBuf }

/-- A service holding only `sessH` under key `"s1"`. -/
def stH : ServiceState :=
  { config := testConfig, sessions := [("s1", sessH)] }

/-- An empty service with a per-user quota of one session. -/
def stA : ServiceState :=
  { config := { testConfig with maxSessions := 1 }, sessions := [] }

/-- The service `stA` after alice has one running session. -/
def stB : ServiceState :=
  { config := { testConfig with maxSessions := 1 },
    sessions := [("s1", sampleSession "s1" "alice" Status.running 0)] }

/-- A service with one running session, for the kill scenarios. -/
def stC : ServiceState :=
  { config := testConfig,
    sessions := [("s1", sampleSession "s1" "alice" Status.running 0)] }

/-- The service `stC` after its only session is removed. -/
def stCKilled : ServiceState :=
  { config := testConfig, sessions := [] }

/-- The session object of `stC` as mutated by a successful kill. -/
def sessCStopped : Session :=
  { sampleSession "s1" "alice" Status.running 0 with status := Status.stopped }

/-- One iteration of the read loop of `handleWebSocketMessages`:
`none` is a `ReadJSON` error (the loop breaks and the deferred cleanup
detaches the connection); a message is handled and the loop continues.
The final `Bool` is `true` when the connection stays attached and keeps
being read. -/
def wsStep (st : ServiceState) (sess : Session)
    (parseResize : String → Option ResizeData) (now : Nat) :
    Option Message → ServiceState × List Message × List Effect × Bool
  | none => (st, [], [], false)
  | some msg =>
      let r := handleMessage st sess msg parseResize now
      (r.1, r.2.1, r.2.2, true)

end WebTunnel

namespace WebTunnel

/-! ### List helpers for the ring-buffer proof -/

theorem take_set_eq (l : List Nat) (i : Nat) (a : Nat) :
    (l.set i a).take i = l.take i := by
  induction l generalizing i with
  | nil => simp
  | cons x xs ih =>
      cases i with
      | zero => simp
      | succ j => simp [List.set, List.take, ih]

theorem take_succ_set (l : List Nat) (i : Nat) (a : Nat) (h : i < l.length) :
    (l.set i a).take (i + 1) = l.take i ++ [a] := by
  induction l generalizing i with
  | nil => simp at h
  | cons x xs ih =>
      cases i with
      | zero => simp
      | succ j =>
          simp only [List.length_cons, Nat.succ_lt_succ_iff] at h
          simp [List.set, List.take, ih j h]

theorem lastN_of_le (n : Nat) (l : List Nat) (h : l.length ≤ n) :
    lastN n l = l := by
  simp [lastN, Nat.sub_eq_zero_of_le h]

theorem lastN_lastN_append (n : Nat) (l m : List Nat) :
    lastN n (lastN n l ++ m) = lastN n (l ++ m) := by
  rcases Nat.le_total l.length n with hle | hle
  · rw [lastN_of_le n l hle]
  · unfold lastN
    rw [List.drop_append_eq_append_drop, List.drop_append_eq_append_drop, List.drop_drop]
    simp only [List.length_append, List.length_drop]
    congr 1
    · congr 1
      omega
    · congr 1
      omega

/-! ### Ring-buffer correctness -/

theorem CircularBuffer.read_not_full (cb : CircularBuffer) (h : cb.full = false) :
    cb.read = cb.data.take cb.pos := by
  unfold CircularBuffer.read
  rcases Nat.eq_zero_or_pos cb.pos with h0 | h0
  · simp [h, h0]
  · simp [h, Nat.pos_iff_ne_zero.mp h0]

theorem CircularBuffer.read_full (cb : CircularBuffer) (h : cb.full = true) :
    cb.read = cb.data.drop cb.pos ++ cb.data.take cb.pos := by
  unfold CircularBuffer.read
  simp [h]

theorem CircularBuffer.read_length_le (cb : CircularBuffer) (h : cb.Inv) :
    cb.read.length ≤ cb.size := by
  obtain ⟨hlen, hpos⟩ := h
  cases hfull : cb.full with
  | false =>
      rw [CircularBuffer.read_not_full cb hfull]
      simp only [List.length_take]
      omega
  | true =>
      rw [CircularBuffer.read_full cb hfull]
      simp only [List.length_append, List.length_drop, List.length_take]
      omega

theorem CircularBuffer.writeByte_inv (cb : CircularBuffer) (h : cb.Inv) (b : Nat) :
    (cb.writeByte b).Inv := by
  obtain ⟨hlen, hpos⟩ := h
  have hsz : 0 < cb.size := Nat.lt_of_le_of_lt (Nat.zero_le _) hpos
  refine ⟨?_, ?_⟩
  · simp [CircularBuffer.writeByte, hlen]
  · simp only [CircularBuffer.writeByte]
    exact Nat.mod_lt _ hsz

theorem CircularBuffer.writeByte_size (cb : CircularBuffer) (b : Nat) :
    (cb.writeByte b).size = cb.size := rfl

theorem CircularBuffer.writeByte_data (cb : CircularBuffer) (b : Nat) :
    (cb.writeByte b).data = cb.data.set cb.pos b := rfl

theorem CircularBuffer.writeByte_pos (cb : CircularBuffer) (b : Nat) :
    (cb.writeByte b).pos = (cb.pos + 1) % cb.size := rfl

theorem CircularBuffer.writeByte_full (cb : CircularBuffer) (b : Nat) :
    (cb.writeByte b).full = (if (cb.pos + 1) % cb.size = 0 then true else cb.full) := rfl

theorem CircularBuffer.read_writeByte (cb : CircularBuffer) (h : cb.Inv) (b : Nat) :
    (cb.writeByte b).read = lastN cb.size (cb.read ++ [b]) := by
  obtain ⟨hlen, hpos⟩ := h
  have hposlen : cb.pos < cb.data.length := by omega
  rcases Nat.lt_or_ge (cb.pos + 1) cb.size with hlt | hge
  · -- no wraparound: pos' = pos + 1
    have hmod : (cb.pos + 1) % cb.size = cb.pos + 1 := Nat.mod_eq_of_lt hlt
    cases hfull : cb.full with
    | false =>
        have hr : cb.read = cb.data.take cb.pos := CircularBuffer.read_not_full cb hfull
        have hlast : lastN cb.size (cb.read ++ [b]) = cb.data.take cb.pos ++ [b] := by
          rw [hr]
          refine lastN_of_le _ _ ?_
          simp only [List.length_append, List.length_take, List.length_cons,
            List.length_nil]
          omega
        rw [hlast]
        have hf' : (cb.writeByte b).full = false := by
          rw [CircularBuffer.writeByte_full, hmod, hfull]
          simp
        rw [CircularBuffer.read_not_full _ hf', CircularBuffer.writeByte_data,
          CircularBuffer.writeByte_pos, hmod, take_succ_set cb.data cb.pos b hposlen]
    | true =>
        have hr : cb.read = cb.data.drop cb.pos ++ cb.data.take cb.pos :=
          CircularBuffer.read_full cb hfull
        have hdropc : cb.data.drop cb.pos = cb.data[cb.pos] :: cb.data.drop (cb.pos + 1) :=
          List.drop_eq_getElem_cons hposlen
        have hlast : lastN cb.size (cb.read ++ [b])
            = cb.data.drop (cb.pos + 1) ++ (cb.data.take cb.pos ++ [b]) := by
          rw [hr]
          unfold lastN
          have hlenr : (cb.data.drop cb.pos ++ cb.data.take cb.pos ++ [b]).length
              = cb.size + 1 := by
            simp only [List.length_append, List.length_drop, List.length_take,
              List.length_cons, List.length_nil]
            omega
          rw [hlenr]
          have hs1 : cb.size + 1 - cb.size = 1 := by omega
          rw [hs1, List.append_assoc, hdropc, List.cons_append]
          rw [List.drop_succ_cons, List.drop_zero]
        rw [hlast]
        have hf' : (cb.writeByte b).full = true := by
          rw [CircularBuffer.writeByte_full, hmod]
          split
          · rfl
          · exact hfull
        rw [CircularBuffer.read_full _ hf', CircularBuffer.writeByte_data,
          CircularBuffer.writeByte_pos, hmod,
          List.drop_set_of_lt _ _ (Nat.lt_succ_self cb.pos),
          take_succ_set cb.data cb.pos b hposlen]
  · -- wraparound: pos + 1 = size, pos' = 0, buffer becomes full
    have heq : cb.pos + 1 = cb.size := by omega
    have hmod : (cb.pos + 1) % cb.size = 0 := by
      rw [heq]; exact Nat.mod_self _
    have hfull' : (cb.writeByte b).full = true := by
      rw [CircularBuffer.writeByte_full, hmod]
      simp
    have hdata' : (cb.writeByte b).data = cb.data.take cb.pos ++ [b] := by
      have h1 : (cb.data.set cb.pos b).take (cb.pos + 1) = cb.data.take cb.pos ++ [b] :=
        take_succ_set cb.data cb.pos b hposlen
      have h2 : (cb.data.set cb.pos b).take (cb.pos + 1) = cb.data.set cb.pos b := by
        apply List.take_of_length_le
        simp only [List.length_set]
        omega
      rw [CircularBuffer.writeByte_data, ← h2, h1]
  -- read of the new state is the whole (rotated-by-zero) data
    have hwr : (cb.writeByte b).read = cb.data.take cb.pos ++ [b] := by
      rw [CircularBuffer.read_full _ hfull', CircularBuffer.writeByte_pos, hmod, hdata']
      simp
    rw [hwr]
    cases hfull : cb.full with
    | false =>
        have hr : cb.read = cb.data.take cb.pos := CircularBuffer.read_not_full cb hfull
        rw [hr]
        refine (lastN_of_le _ _ ?_).symm
        simp only [List.length_append, List.length_take, List.length_cons, List.length_nil]
        omega
    | true =>
        have hr : cb.read = cb.data.drop cb.pos ++ cb.data.take cb.pos :=
          CircularBuffer.read_full cb hfull
        rw [hr]
        unfold lastN
        have hlenr : (cb.data.drop cb.pos ++ cb.data.take cb.pos ++ [b]).length
            = cb.size + 1 := by
          simp only [List.length_append, List.length_drop, List.length_take,
            List.length_cons, List.length_nil]
          omega
        rw [hlenr]
        have hs1 : cb.size + 1 - cb.size = 1 := by omega
        have hdropc : cb.data.drop cb.pos = cb.data[cb.pos] :: cb.data.drop (cb.pos + 1) :=
          List.drop_eq_getElem_cons hposlen
        have hdropall : cb.data.drop (cb.pos + 1) = [] := by
          apply List.drop_eq_nil_of_le
          omega
        rw [hs1, List.append_assoc, hdropc, hdropall, List.cons_append,
          List.drop_succ_cons, List.drop_zero, List.nil_append]

theorem CircularBuffer.read_write (cb : CircularBuffer) (h : cb.Inv) (p : List Nat) :
    (cb.write p).read = lastN cb.size (cb.read ++ p) ∧ (cb.write p).Inv := by
  induction p generalizing cb with
  | nil =>
      refine ⟨?_, h⟩
      simp only [CircularBuffer.write, List.foldl_nil, List.append_nil]
      exact (lastN_of_le _ _ (CircularBuffer.read_length_le cb h)).symm
  | cons b p ih =>
      have hstep : cb.write (b :: p) = (cb.writeByte b).write p := rfl
      have hinv' := CircularBuffer.writeByte_inv cb h b
      obtain ⟨ih1, ih2⟩ := ih (cb.writeByte b) hinv'
      refine ⟨?_, by rw [hstep]; exact ih2⟩
      rw [hstep, ih1, CircularBuffer.writeByte_size,
        CircularBuffer.read_writeByte cb h b, lastN_lastN_append]
      simp [List.append_assoc]

theorem CircularBuffer.read_new (N : Nat) : (NewCircularBuffer N).read = [] := by
  simp [NewCircularBuffer, CircularBuffer.read]

theorem CircularBuffer.new_inv (N : Nat) (hN : 0 < N) : (NewCircularBuffer N).Inv := by
  constructor
  · simp [NewCircularBuffer]
  · simpa [NewCircularBuffer] using hN

theorem CircularBuffer.write_append (cb : CircularBuffer) (p q : List Nat) :
    cb.write (p ++ q) = (cb.write p).write q := by
  simp [CircularBuffer.write, List.foldl_append]

theorem CircularBuffer.writeAll_eq (cb : CircularBuffer) (ps : List (List Nat)) :
    cb.writeAll ps = cb.write ps.flatten := by
  induction ps generalizing cb with
  | nil => rfl
  | cons p ps ih =>
      have h1 : cb.writeAll (p :: ps) = (cb.write p).writeAll ps := rfl
      have h2 : (p :: ps).flatten = p ++ ps.flatten := rfl
      rw [h1, h2, CircularBuffer.write_append, ih]

/-- C1: Ring Output Buffer last-N property. For every sequence of `Write`
calls on a buffer of capacity `N > 0` whose payloads concatenate to `c`,
a subsequent `Read()` returns the last `N` bytes of `c` in original order:
all of `c` when `c` has at most `N` bytes, and exactly the final `N`
bytes (`c` with its first `length c - N` bytes dropped — so no
duplication and no reordering) when `c` is longer. -/
theorem c1_ring_buffer_lastN (N : Nat) (hN : 0 < N) (ps : List (List Nat)) :
    ((NewCircularBuffer N).writeAll ps).read = lastN N ps.flatten
    ∧ (ps.flatten.length ≤ N → ((NewCircularBuffer N).writeAll ps).read = ps.flatten)
    ∧ (N < ps.flatten.length →
        ((NewCircularBuffer N).writeAll ps).read = ps.flatten.drop (ps.flatten.length - N)) := by
  have hinv : (NewCircularBuffer N).Inv := CircularBuffer.new_inv N hN
  have h := (CircularBuffer.read_write (NewCircularBuffer N) hinv ps.flatten).1
  rw [CircularBuffer.read_new, List.nil_append] at h
  rw [CircularBuffer.writeAll_eq]
  have hsz : (NewCircularBuffer N).size = N := rfl
  rw [hsz] at h
  refine ⟨h, fun hle => ?_, fun _ => ?_⟩
  · rw [h]
    exact lastN_of_le _ _ hle
  · rw [h]
    rfl

/-- Witness for C1: capacity 3, writes `[1,2]` then `[3,4,5]`
(5 bytes total), read returns the last 3 bytes `[3,4,5]`. -/
theorem c1_ring_buffer_lastN_witness :
    0 < 3 ∧ ((NewCircularBuffer 3).writeAll [[1, 2], [3, 4, 5]]).read = [3, 4, 5] := by
  refine ⟨by decide, ?_⟩
  have h := (c1_ring_buffer_lastN 3 (by decide) [[1, 2], [3, 4, 5]]).1
  rw [h]
  decide

/-- C2 (code bug): with deny-list `["rm", "sudo"]`, `CreateSession` compares
the whole command string for equality, so `"rm -rf /"` is accepted, not
rejected with `CommandBlocked` as the claim — and the repository's own
`TestIsCommandBlocked` — require; only the exact strings `"rm"`/`"sudo"`
are blocked, and `"echo rm"` is accepted. -/
theorem c2_deny_list_exact_match_only :
    createOk (createSession { config := testConfig, sessions := [] } "user123" "rm -rf /"
      "/tmp" "s1" 0 true true) = true
    ∧ createOk (createSession { config := testConfig, sessions := [] } "user123" "echo rm"
      "/tmp" "s1" 0 true true) = true
    ∧ (createSession { config := testConfig, sessions := [] } "user123" "rm"
      "/tmp" "s1" 0 true true).2 = Except.error CreateError.commandBlocked := by
  refine ⟨rfl, rfl, rfl⟩

/-- C6 (code bug): the reaper pass ignores the configured idle timeout
(`testConfig.sessionTimeoutMs = 100`) and uses a hard-coded one hour: a
session idle for 200 ms — beyond the configured timeout — survives the
pass, and only a session idle for more than an hour is removed. -/
theorem c6_cleanup_ignores_configured_timeout :
    getSession
        (cleanupStaleSessions
          { config := testConfig,
            sessions := [("s1", sampleSession "s1" "alice" Status.running 0)] } 200) "s1"
      = some (sampleSession "s1" "alice" Status.running 0)
    ∧ 200 - (sampleSession "s1" "alice" Status.running 0).lastActive
        > testConfig.sessionTimeoutMs
    ∧ getSession
        (cleanupStaleSessions
          { config := testConfig,
            sessions := [("s1", sampleSession "s1" "alice" Status.running 0)] } 3600001) "s1"
      = none := by
  refine ⟨by decide, by decide, by decide⟩

/-- C10: a successful `KillSession` hands every holder of the session
object the record with `Status = Stopped`: the session returned by the
kill is exactly the one `GetSession` yielded before, with its status
field set to `Stopped`. -/
theorem c10_kill_sets_stopped (st : ServiceState) (sessionID : String) :
    (killSession st sessionID).2
      = (getSession st sessionID).map (fun s => { s with status := Status.stopped }) := by
  unfold killSession getSession
  cases findSession st.sessions sessionID <;> rfl

theorem findSession_erase (l : List (String × Session)) (sessionID : String) :
    findSession (eraseSession l sessionID) sessionID = none := by
  induction l with
  | nil => rfl
  | cons p rest ih =>
      obtain ⟨k, s⟩ := p
      by_cases hk : k = sessionID
      · simpa [eraseSession, List.filter_cons, hk] using ih
      · simpa [eraseSession, List.filter_cons, findSession, hk] using ih

/-- C5: after a successful `KillSession(id)`, `GetSession(id)` reports
not-found, and a second `KillSession(id)` returns the not-found error
(leaving the state untouched) rather than succeeding or failing fatally. -/
theorem c5_kill_removes_and_idempotent (st st' : ServiceState) (sessionID : String)
    (s : Session) (h : killSession st sessionID = (st', some s)) :
    getSession st' sessionID = none ∧ killSession st' sessionID = (st', none) := by
  unfold killSession at h
  cases hf : findSession st.sessions sessionID with
  | none =>
      rw [hf] at h
      simp at h
  | some sess =>
      rw [hf] at h
      have h1 : st' = { st with sessions := eraseSession st.sessions sessionID } := by
        have := congrArg Prod.fst h
        exact this.symm
      subst h1
      constructor
      · exact findSession_erase st.sessions sessionID
      · unfold killSession
        simp [findSession_erase]

/-- Witness for C5: killing the only session of `stC` succeeds, after
which lookup fails and a second kill reports not-found. -/
theorem c5_kill_removes_and_idempotent_witness :
    killSession stC "s1" = (stCKilled, some sessCStopped)
    ∧ (getSession stCKilled "s1" = none ∧ killSession stCKilled "s1" = (stCKilled, none)) :=
  ⟨by decide, c5_kill_removes_and_idempotent stC stCKilled "s1" sessCStopped (by decide)⟩

/-- C8: when starting the PTY process fails, `CreateSession` returns the
spawn-failure error and the registry is completely unchanged, so no
`Get` or `List` caller can observe the half-created session. -/
theorem c8_spawn_failure_is_atomic (st : ServiceState)
    (userID command workingDir newID : String) (now : Nat)
    (hquota : (countRunning st.sessions userID : Int) < st.config.maxSessions)
    (hallow : st.config.allowedCommands = [] ∨ st.config.allowedCommands.contains command = true)
    (hblock : st.config.blockedCommands.contains command = false) :
    createSession st userID command workingDir newID now true false
      = (st, Except.error CreateError.spawnFailed) := by
  unfold createSession
  rw [if_neg (not_le.mpr hquota)]
  have h2 : (st.config.allowedCommands.length > 0
      && !(st.config.allowedCommands.contains command)) = false := by
    rcases hallow with h | h
    · simp [h]
    · simp only [h, Bool.not_true, Bool.and_false]
  rw [if_neg (ne_true_of_eq_false h2), if_neg (ne_true_of_eq_false hblock)]
  rfl

/-- Witness for C8: in the empty service, creating `"ls"` with a failing
spawn returns `spawnFailed` and leaves the state exactly as it was. -/
theorem c8_spawn_failure_is_atomic_witness :
    ((countRunning ([] : List (String × Session)) "u" : Int) < testConfig.maxSessions)
    ∧ createSession { config := testConfig, sessions := [] } "u" "ls" "/tmp" "s9" 0 true false
        = ({ config := testConfig, sessions := [] }, Except.error CreateError.spawnFailed) :=
  ⟨by decide,
   c8_spawn_failure_is_atomic { config := testConfig, sessions := [] } "u" "ls" "/tmp" "s9" 0
     (by decide) (Or.inl rfl) (by decide)⟩

/-- C7: an inbound `resize` message whose payload does not unmarshal is
ignored: the registry and session are untouched, nothing is sent back,
no PTY effect is issued, and the connection keeps being read. -/
theorem c7_unparsable_resize_ignored (st : ServiceState) (sess : Session)
    (parseResize : String → Option ResizeData) (now : Nat) (msg : Message)
    (htype : msg.msgType = "resize") (hparse : parseResize msg.data = none) :
    wsStep st sess parseResize now (some msg) = (st, [], [], true) := by
  have hm : handleMessage st sess msg parseResize now = (st, [], []) := by
    unfold handleMessage
    rw [htype]
    rw [if_neg (by decide : ¬("resize" = "input")), if_pos rfl, hparse]
  show ((handleMessage st sess msg parseResize now).1,
    (handleMessage st sess msg parseResize now).2.1,
    (handleMessage st sess msg parseResize now).2.2, true) = (st, [], [], true)
  rw [hm]

/-- Witness for C7: a resize message carrying `"not json"` leaves the
one-session service unchanged and keeps the connection. -/
theorem c7_unparsable_resize_ignored_witness :
    ({ msgType := "resize", data := "not json", sessionID := "s1" } : Message).msgType = "resize"
    ∧ (fun _ : String => (none : Option ResizeData)) "not json" = none
    ∧ wsStep stC sessH (fun _ => none) 5
        (some { msgType := "resize", data := "not json", sessionID := "s1" })
        = (stC, [], [], true) :=
  ⟨rfl, rfl,
   c7_unparsable_resize_ignored stC sessH (fun _ => none) 5
     { msgType := "resize", data := "not json", sessionID := "s1" } rfl rfl⟩

/-- C9: a parsed `resize` payload is applied to the PTY after reduction
of `rows` and `cols` modulo `2^16` (Go's `uint16(int)` conversion), with
no error message sent back to the client and no other state change. -/
theorem c9_resize_truncates_mod_65536 (st : ServiceState) (sess : Session)
    (parseResize : String → Option ResizeData) (now : Nat) (msg : Message) (rd : ResizeData)
    (htype : msg.msgType = "resize") (hparse : parseResize msg.data = some rd)
    (hpty : sess.hasPty = true) :
    wsStep st sess parseResize now (some msg)
      = (st, [], [Effect.ptyResize ((rd.rows % 65536).toNat) ((rd.cols % 65536).toNat)], true) := by
  have hm : handleMessage st sess msg parseResize now
      = (st, [], [Effect.ptyResize ((rd.rows % 65536).toNat) ((rd.cols % 65536).toNat)]) := by
    unfold handleMessage
    rw [htype]
    rw [if_neg (by decide : ¬("resize" = "input")), if_pos rfl, hparse]
    show (if sess.hasPty then _ else _) = _
    rw [hpty]
    rfl
  show ((handleMessage st sess msg parseResize now).1,
    (handleMessage st sess msg parseResize now).2.1,
    (handleMessage st sess msg parseResize now).2.2, true)
      = (st, [], [Effect.ptyResize ((rd.rows % 65536).toNat) ((rd.cols % 65536).toNat)], true)
  rw [hm]

/-- Witness for C9: a payload with `cols = 65636` (outside `[0, 65535]`)
resizes to 100 columns: `65636 mod 65536 = 100`, and no error goes back. -/
theorem c9_resize_truncates_mod_65536_witness :
    (fun _ : String => some (⟨65636, 24⟩ : ResizeData)) "x" = some ⟨65636, 24⟩
    ∧ wsStep stC sessH (fun _ => some ⟨65636, 24⟩) 5
        (some { msgType := "resize", data := "x", sessionID := "s1" })
        = (stC, [],
           [Effect.ptyResize (((24 : Int) % 65536).toNat) (((65636 : Int) % 65536).toNat)], true)
    ∧ (((65636 : Int) % 65536).toNat = 100 ∧ ((24 : Int) % 65536).toNat = 24) :=
  ⟨rfl,
   c9_resize_truncates_mod_65536 stC sessH (fun _ => some ⟨65636, 24⟩) 5
     { msgType := "resize", data := "x", sessionID := "s1" } ⟨65636, 24⟩ rfl rfl rfl,
   by decide, by decide⟩

/-- C3 counterexample: attaching connection `7` to the session whose
buffer holds `"hello\n"` delivers the welcome banner as the FIRST
message and the buffer snapshot only as the second, so the snapshot is
not the first message delivered. -/
theorem c3_counterexample_welcome_first :
    (attachWebSocket stH "s1" 7).toOption.map (fun p => p.2.map Message.data)
      = some ["\r\n🌐 WebTunnel connected to session s1\r\n", "hello\n"]
    ∧ "\r\n🌐 WebTunnel connected to session s1\r\n" ≠ "hello\n" := by
  refine ⟨by decide, by decide⟩

/-- C3 (amended): `Attach` adds the connection to the fan-out set and,
after first sending a fixed welcome banner as an `output` message, sends
the current Ring Buffer snapshot as one `output` message — the second
message on the connection — before the inbound-read task begins; a
connection attached after a PTY write receives that write's bytes in
its second message. -/
theorem c3_snapshot_is_second_message (st : ServiceState) (sessionID : String)
    (connId : Nat) (sess : Session)
    (hfind : findSession st.sessions sessionID = some sess)
    (hrun : sess.status = Status.running)
    (hbuf : 0 < sess.outputBuf.read.length) :
    attachWebSocket st sessionID connId
      = .ok ({ st with sessions := (updateSession st.sessions sessionID
                  { sess with connections := connId :: sess.connections }) },
             [welcomeMessage sessionID,
              { msgType := "output", data := bytesToString sess.outputBuf.read,
                sessionID := sessionID }]) := by
  unfold attachWebSocket
  rw [hfind]
  dsimp only
  rw [if_neg (not_not_intro hrun), if_pos hbuf]

/-- Witness for C3: attaching to `stH` (buffer `"hello\n"`) yields the
welcome banner and then the snapshot, and registers connection `7`. -/
theorem c3_snapshot_is_second_message_witness :
    findSession stH.sessions "s1" = some sessH
    ∧ sessH.status = Status.running
    ∧ 0 < sessH.outputBuf.read.length
    ∧ attachWebSocket stH "s1" 7
        = .ok ({ stH with sessions := (updateSession stH.sessions "s1"
                    { sessH with connections := 7 :: sessH.connections }) },
               [welcomeMessage "s1",
                { msgType := "output", data := bytesToString sessH.outputBuf.read,
                  sessionID := "s1" }]) :=
  ⟨rfl, rfl, by decide,
   c3_snapshot_is_second_message stH "s1" 7 sessH rfl rfl (by decide)⟩

/-- C4: the per-user quota. A user below the configured maximum (with an
admissible command) can create a session; a user at or above it gets the
quota error whatever the other inputs; and the outcome for a different
user is unaffected by an extra session owned by the first user. -/
theorem c4_per_user_quota (st : ServiceState) (u u2 cmd wd newID : String) (now : Nat)
    (mk sp : Bool) (i : String) (s : Session) :
    ((countRunning st.sessions u : Int) < st.config.maxSessions →
      (st.config.allowedCommands = [] ∨ st.config.allowedCommands.contains cmd = true) →
      st.config.blockedCommands.contains cmd = false →
      createOk (createSession st u cmd wd newID now true true) = true)
    ∧ ((countRunning st.sessions u : Int) ≥ st.config.maxSessions →
      (createSession st u cmd wd newID now mk sp).2 = Except.error CreateError.quotaExceeded)
    ∧ (u2 ≠ u → s.userID = u →
      (createSession { st with sessions := (i, s) :: st.sessions } u2 cmd wd newID now mk sp).2
        = (createSession st u2 cmd wd newID now mk sp).2) := by
  refine ⟨?_, ?_, ?_⟩
  · intro h1 hallow hblock
    unfold createSession createOk
    rw [if_neg (not_le.mpr h1)]
    have h2 : (st.config.allowedCommands.length > 0
        && !(st.config.allowedCommands.contains cmd)) = false := by
      rcases hallow with h | h
      · simp [h]
      · simp only [h, Bool.not_true, Bool.and_false]
    rw [if_neg (ne_true_of_eq_false h2), if_neg (ne_true_of_eq_false hblock)]
    rfl
  · intro h1
    unfold createSession
    rw [if_pos h1]
  · intro hne hsu
    have hcount : countRunning ((i, s) :: st.sessions) u2 = countRunning st.sessions u2 := by
      unfold countRunning
      rw [List.countP_cons]
      have hb : (s.userID == u2) = false := by
        rw [hsu]
        exact beq_eq_false_iff_ne.mpr (fun h => hne h.symm)
      simp [hb]
    unfold createSession
    simp only [hcount]
    by_cases h1 : (countRunning st.sessions u2 : Int) ≥ st.config.maxSessions
    · rw [if_pos h1, if_pos h1]
    · rw [if_neg h1, if_neg h1]
      by_cases h2 : (st.config.allowedCommands.length > 0
          && !(st.config.allowedCommands.contains cmd)) = true
      · rw [if_pos h2, if_pos h2]
      · rw [if_neg h2, if_neg h2]
        by_cases h3 : st.config.blockedCommands.contains cmd = true
        · rw [if_pos h3, if_pos h3]
        · rw [if_neg h3, if_neg h3]
          by_cases h4 : (!mk) = true
          · rw [if_pos h4, if_pos h4]
          · rw [if_neg h4, if_neg h4]
            by_cases h5 : (!sp) = true
            · rw [if_pos h5, if_pos h5]
            · rw [if_neg h5, if_neg h5]

/-- Witness for C4: with `MaxSessions = 1`, alice's first create
succeeds, her second is rejected with the quota error, and bob's
outcome is the same with or without alice's session in the table. -/
theorem c4_per_user_quota_witness :
    ((countRunning stA.sessions "alice" : Int) < stA.config.maxSessions)
    ∧ createOk (createSession stA "alice" "ls" "/tmp" "s1" 0 true true) = true
    ∧ ((countRunning stB.sessions "alice" : Int) ≥ stB.config.maxSessions)
    ∧ (createSession stB "alice" "ls" "/tmp" "s2" 1 true true).2
        = Except.error CreateError.quotaExceeded
    ∧ (createSession
          { stA with sessions :=
              ("s1", sampleSession "s1" "alice" Status.running 0) :: stA.sessions }
          "bob" "ls" "/tmp" "s2" 1 true true).2
        = (createSession stA "bob" "ls" "/tmp" "s2" 1 true true).2 :=
  ⟨by decide,
   (c4_per_user_quota stA "alice" "bob" "ls" "/tmp" "s1" 0 true true "s1"
       (sampleSession "s1" "alice" Status.running 0)).1
     (by decide) (Or.inl rfl) (by decide),
   by decide,
   (c4_per_user_quota stB "alice" "bob" "ls" "/tmp" "s2" 1 true true "s1"
       (sampleSession "s1" "alice" Status.running 0)).2.1
     (by decide),
   (c4_per_user_quota stA "alice" "bob" "ls" "/tmp" "s2" 1 true true "s1"
       (sampleSession "s1" "alice" Status.running 0)).2.2
     (by decide) rfl⟩

end WebTunnel

